import Mathlib

/-!
Shallow embedding of the two source files of the repository excerpt:
`torchdata/dataloader2/utils/worker.py` (worker-process initialization and
deterministic reseeding for a distributed data-loading pipeline) and
`torcharrow/torcharrow/velox_rt/column.py` (a factory wrapping a native
columnar structure).

The DataPipe graph is an external, opaque, composed-stage structure; the
excerpt only queries and rewrites it through collaborator calls
(`traverse_dps`, `find_dps`, `replace_dp`, `find_replicable_branches`).
Following that, a graph is embedded as the list of its nodes in traversal
order, with the root datapipe at the head (the Python code recovers the
root as the first entry of the traversed graph). External effects
(sharding application, seed application, queue messages, global RNG
seeding) are recorded in explicit effect records; Python `assert`
failures are embedded as `Except.error`.
-/

/-- An inter-process message queue, opaque to this excerpt. -/
structure Queue where
  uid : Nat
deriving DecidableEq, Repr

/-- A node of the DataPipe graph. `dummyIter` embeds `_DummyIterDataPipe`
(the marked non-replicable stand-in), `iterateQueue` embeds
`communication.iter._IterateQueueDataPipes` (the queue-backed dispatch
consumer, carrying its request/response queues), `iterPipe` an ordinary
`IterDataPipe`, `mapPipe` a `MapDataPipe`, and `nonPipe` a value that is
neither (possible as the return of a custom init/reset function). -/
inductive DataPipe where
  | dummyIter (uid : Nat)
  | iterateQueue (req res : Option Queue)
  | iterPipe (uid : Nat)
  | mapPipe (uid : Nat)
  | nonPipe (uid : Nat)
deriving DecidableEq, Repr

/-- `isinstance(dp, IterDataPipe)`: `_DummyIterDataPipe` and
`_IterateQueueDataPipes` are themselves `IterDataPipe` subclasses. -/
def is_iter_datapipe : DataPipe → Bool
  | .dummyIter _ => true
  | .iterateQueue _ _ => true
  | .iterPipe _ => true
  | .mapPipe _ => false
  | .nonPipe _ => false

/-- `isinstance(dp, MapDataPipe)`. -/
def is_map_datapipe : DataPipe → Bool
  | .mapPipe _ => true
  | _ => false

/-- `isinstance(dp, _DummyIterDataPipe)`. -/
def is_dummy : DataPipe → Bool
  | .dummyIter _ => true
  | _ => false

/-- `isinstance(dp, communication.iter._IterateQueueDataPipes)`. -/
def is_iterate_queue : DataPipe → Bool
  | .iterateQueue _ _ => true
  | _ => false

/-- Modelled from the spec: `find_dps` (from `torchdata.dataloader2.graph`,
not under src/) finds the marked nodes of a given type in the traversed
graph; on the node-list representation it is the filter by that type. -/
def find_dps (graph : List DataPipe) (p : DataPipe → Bool) : List DataPipe :=
  graph.filter p

/-- Modelled from the spec: `replace_dp` (from `torchdata.dataloader2.graph`,
not under src/) substitutes one node of the graph by another, returning the
rewritten graph; on the node-list representation it maps the replacement
over the nodes. -/
def replace_dp (graph : List DataPipe) (old_dp new_dp : DataPipe) : List DataPipe :=
  graph.map (fun dp => if dp = old_dp then new_dp else dp)

/-- Modelled from the spec: `find_replicable_branches` (from
`torchdata.dataloader2.utils.dispatch`, not under src/) returns the
replicable branches of the graph, i.e. the parts without the
non-replicable `_DummyIterDataPipe`; on the node-list representation,
the nodes that are not the dummy. -/
def find_replicable_branches (graph : List DataPipe) : List DataPipe :=
  graph.filter (fun dp => !is_dummy dp)

/-- `WorkerInfo`: message class keeping track of worker information
(total number of worker processes, worker id of the current process). -/
structure WorkerInfo where
  num_workers : Nat
  worker_id : Nat
deriving DecidableEq, Repr

/-- `_DistInfo`: message class for distributed information
(distributed shared random seed, world size, rank). -/
structure _DistInfo where
  shared_seed : Int
  world_size : Nat
  rank : Nat
deriving DecidableEq, Repr

/-- Effects and result of `process_init_fn`. `sharding_calls` records each
`torch.utils.data.graph_settings.apply_sharding(target, num_workers,
worker_id, MULTIPROCESSING)` invocation; `sharded_whole_graph` is true on
the all-replicable path; `dispatch_dp` holds the queue-backed
remote-iteration DataPipe substituted for the non-replicable node, when
any; `graph` is the (possibly rewritten) graph and `datapipe` the returned
pipe. -/
structure InitEffects where
  sharding_calls : List (DataPipe × Nat × Nat)
  sharded_whole_graph : Bool
  dispatch_dp : Option DataPipe
  graph : List DataPipe
  datapipe : DataPipe
deriving DecidableEq, Repr

/-- The sharding section of `process_init_fn` (its body before the
optional custom-init step): find the non-replicable DataPipes and take one
of the two sharding paths, with the Python `assert`s embedded as
`Except.error`. -/
def mp_sharding (graph : List DataPipe) (worker_info : WorkerInfo)
    (dispatching_req_queue : Option Queue)
    (dispatching_res_queue : Option Queue) : Except String InitEffects :=
  let datapipe := graph.headD (DataPipe.iterPipe 0)
  -- Find if there is non-replicable DataPipe
  let non_replicable_dp := find_dps graph is_dummy
  -- 1) All DataPipes are replicable, apply mp sharding to the whole graph
  if non_replicable_dp.length = 0 then
    if dispatching_req_queue = none ∧ dispatching_res_queue = none then
      .ok { sharding_calls := [(datapipe, worker_info.num_workers, worker_info.worker_id)]
            sharded_whole_graph := true
            dispatch_dp := none
            graph := graph
            datapipe := datapipe }
    else
      .error "assert dispatching_req_queue is None and dispatching_res_queue is None"
  -- 2) There is non-replicable DataPipe; apply mp sharding only to
  --    replicable branches and substitute the non-replicable node.
  else
    if non_replicable_dp.length = 1 then
      if ¬(dispatching_req_queue = none ∧ dispatching_res_queue = none) then
        let replicable_branches := find_replicable_branches graph
        let dispatch_process_dp := DataPipe.iterateQueue dispatching_req_queue dispatching_res_queue
        let graph₂ := replace_dp graph (non_replicable_dp.headD (DataPipe.dummyIter 0)) dispatch_process_dp
        .ok { sharding_calls :=
                replicable_branches.map (fun dp => (dp, worker_info.num_workers, worker_info.worker_id))
              sharded_whole_graph := false
              dispatch_dp := some dispatch_process_dp
              graph := graph₂
              datapipe := graph₂.headD (DataPipe.iterPipe 0) }
      else
        .error "assert not (dispatching_req_queue is None and dispatching_res_queue is None)"
    else
      .error "assert len(non_replicable_dp) == 1"

/-- The custom-init tail of `process_init_fn`: optionally apply
`custom_init_fn` and assert its result is an `IterDataPipe` or a
`MapDataPipe`. -/
def init_apply_custom (worker_info : WorkerInfo)
    (custom_init_fn : Option (DataPipe → WorkerInfo → DataPipe))
    (eff : InitEffects) : Except String InitEffects :=
  match custom_init_fn with
  | none => .ok eff
  | some f =>
    let dp := f eff.datapipe worker_info
    if is_iter_datapipe dp || is_map_datapipe dp then
      .ok { eff with datapipe := dp }
    else
      .error "assert isinstance(datapipe, (IterDataPipe, MapDataPipe))"

/-- `process_init_fn(datapipe, worker_info, custom_init_fn,
dispatching_req_queue, dispatching_res_queue)`: based on the worker
information, shard the DataPipe graph dynamically. The argument `graph` is
the node list of `traverse_dps(datapipe)`, head = root. -/
def process_init_fn
    (graph : List DataPipe) (worker_info : WorkerInfo)
    (custom_init_fn : Option (DataPipe → WorkerInfo → DataPipe))
    (dispatching_req_queue : Option Queue)
    (dispatching_res_queue : Option Queue) : Except String InitEffects :=
  match mp_sharding graph worker_info dispatching_req_queue dispatching_res_queue with
  | .error e => .error e
  | .ok eff => init_apply_custom worker_info custom_init_fn eff

/-- The seeds `_set_global_random_state` applies to the three process-wide
subsystems: `random.seed`, `torch.manual_seed`, and (when numpy is
present) `numpy.random.seed`. -/
structure GlobalRandomState where
  python_seed : Int
  torch_seed : Int
  numpy_seed : Option Int
deriving DecidableEq, Repr

/-- `_set_global_random_state(seed_generator)`: draws one int64 seed for
`random.seed`, one for `torch.manual_seed`, and, when numpy is present,
one int32 seed for `numpy.random.seed`, mapped into uint32 range when
negative ("Numpy only accepts uint32 as the seed"). The generator draws
are abstracted by `draw i` (the i-th int64 draw of `generate_random_int`
from the generator's current seed) and `draw32 i` (the same draw taken
with `torch.int32`). -/
def _set_global_random_state (draw : Nat → Int) (draw32 : Nat → Int)
    (has_numpy : Bool) : GlobalRandomState :=
  let py_seed := draw 0
  let torch_seed := draw 1
  if has_numpy then
    let np_seed := draw32 2
    let np_seed := if np_seed < 0 then 2 ^ 32 + np_seed else np_seed
    { python_seed := py_seed, torch_seed := torch_seed, numpy_seed := some np_seed }
  else
    { python_seed := py_seed, torch_seed := torch_seed, numpy_seed := none }

/-- `global_worker_id = worker_info.worker_id * dist_info.world_size +
dist_info.rank` as computed in `process_reset_fn`. -/
def global_worker_id (worker_info : WorkerInfo) (dist_info : _DistInfo) : Nat :=
  worker_info.worker_id * dist_info.world_size + dist_info.rank

/-- The worker-and-rank-specific seed `process_reset_fn` feeds to
`worker_seed_generator.manual_seed`:
`dist_info.shared_seed + global_worker_id`. -/
def derived_worker_seed (worker_info : WorkerInfo) (dist_info : _DistInfo) : Int :=
  dist_info.shared_seed + (global_worker_id worker_info dist_info : Int)

/-- Effects and result of `process_reset_fn`. `reset_epoch_msgs` counts the
`reset_epoch` messages sent to the dispatch process; `graph_seed` is the
seed held by `worker_seed_generator` when `apply_random_seed(datapipe, ·)`
is called; `global_seed` the seed it holds when `_set_global_random_state`
is called; `global_state` the seeds applied to the three subsystems;
`datapipe` the returned pipe. -/
structure ResetEffects where
  reset_epoch_msgs : Nat
  graph_seed : Int
  global_seed : Int
  global_state : GlobalRandomState
  datapipe : DataPipe
deriving DecidableEq, Repr

/-- The body of `process_reset_fn` before the optional custom-reset step:
reset the dispatch process (sending the `reset_epoch` message only from
worker 0), then reset the random state of the DataPipe graph and the
global random states for torch, random and numpy. `rand s i` abstracts
the i-th int64 draw of `generate_random_int` from a `torch.Generator`
manually seeded with `s`, and `rand32 s i` the same draw taken with
`torch.int32`; `has_numpy` embeds the import-time `HAS_NUMPY` flag. The
argument `graph` is the node list of `traverse_dps(datapipe)`, head =
root. -/
def reset_seeds (rand rand32 : Int → Nat → Int) (has_numpy : Bool)
    (graph : List DataPipe) (worker_info : WorkerInfo) (dist_info : _DistInfo) :
    Except String ResetEffects :=
  let datapipe := graph.headD (DataPipe.iterPipe 0)
  -- Reset non-sharding process first
  let dispatch_process_consumer_dps := find_dps graph is_iterate_queue
  let step₁ : Except String Nat :=
    if dispatch_process_consumer_dps.length > 0 then
      if dispatch_process_consumer_dps.length = 1 then
        -- Only send the reset epoch message once
        if worker_info.worker_id = 0 then .ok 1 else .ok 0
      else .error "assert len(dispatch_process_consumer_dps) == 1"
    else .ok 0
  match step₁ with
  | .error e => .error e
  | .ok reset_epoch_msgs =>
    -- worker_seed_generator.manual_seed(dist_info.shared_seed);
    -- apply_random_seed(datapipe, worker_seed_generator)
    let graph_seed := dist_info.shared_seed
    -- Set different seeds across distributed workers:
    -- worker_seed_generator.manual_seed(shared_seed + global_worker_id)
    let worker_seed := derived_worker_seed worker_info dist_info
    -- Set global random states
    let global_state := _set_global_random_state (rand worker_seed) (rand32 worker_seed) has_numpy
    .ok { reset_epoch_msgs := reset_epoch_msgs, graph_seed := graph_seed
          global_seed := worker_seed, global_state := global_state, datapipe := datapipe }

/-- The custom-reset tail of `process_reset_fn`: optionally apply
`custom_reset_fn` and assert its result is an `IterDataPipe` or a
`MapDataPipe`. -/
def reset_apply_custom (worker_info : WorkerInfo)
    (custom_reset_fn : Option (DataPipe → WorkerInfo → DataPipe))
    (eff : ResetEffects) : Except String ResetEffects :=
  match custom_reset_fn with
  | none => .ok eff
  | some f =>
    let dp := f eff.datapipe worker_info
    if is_iter_datapipe dp || is_map_datapipe dp then
      .ok { eff with datapipe := dp }
    else
      .error "assert isinstance(datapipe, (IterDataPipe, MapDataPipe))"

/-- `process_reset_fn(datapipe, worker_info, dist_info, custom_reset_fn)`
assembled from its dispatch-reset/seeding section and its custom-reset
tail. -/
def process_reset_fn (rand rand32 : Int → Nat → Int) (has_numpy : Bool)
    (graph : List DataPipe) (worker_info : WorkerInfo) (dist_info : _DistInfo)
    (custom_reset_fn : Option (DataPipe → WorkerInfo → DataPipe)) :
    Except String ResetEffects :=
  match reset_seeds rand rand32 has_numpy graph worker_info dist_info with
  | .error e => .error e
  | .ok eff => reset_apply_custom worker_info custom_reset_fn eff

/-- Whether an `Except` result is a success. -/
def except_ok : Except String α → Bool
  | .ok _ => true
  | .error _ => false

/-! Embedding of `torcharrow/torcharrow/velox_rt/column.py`. -/

/-- `torcharrow.dtypes.DType`, opaque to this excerpt. -/
structure DType where
  uid : Nat
deriving DecidableEq, Repr

/-- `torcharrow.column_factory.Device`, opaque to this excerpt. -/
structure Device where
  uid : Nat
deriving DecidableEq, Repr

/-- `_torcharrow.BaseColumn`, the native velox column, opaque to this
excerpt. -/
structure BaseColumn where
  uid : Nat
deriving DecidableEq, Repr

/-- `torcharrow.icolumn.IColumn` as used by `ColumnFromVelox`: the column
object produced by `scope.Column`, with the `_data` and `_finialized`
attributes that `from_velox` assigns. -/
structure IColumn where
  dtype : DType
  device : Device
  _data : BaseColumn
  _finialized : Bool
deriving DecidableEq, Repr

/-- Modelled from the spec: `torcharrow.scope.Scope` (not under src/) is
opaque here except for its column constructor; `Column dtype device`
embeds `scope.Column(dtype=dtype, to=device)`. -/
structure Scope where
  Column : DType → Device → IColumn

/-- `ColumnFromVelox.from_velox(scope, device, dtype, data, finialized)`:
construct the column via `scope.Column(dtype=dtype, to=device)`, then set
its `_data` and `_finialized` attributes. -/
def ColumnFromVelox.from_velox (scope : Scope) (device : Device) (dtype : DType)
    (data : BaseColumn) (finialized : Bool) : IColumn :=
  let col := scope.Column dtype device
  let col := { col with _data := data, _finialized := finialized }
  col

/-! Helper lemmas. -/

theorem process_init_fn_none (graph : List DataPipe) (wi : WorkerInfo)
    (req res : Option Queue) :
    process_init_fn graph wi none req res = mp_sharding graph wi req res := by
  unfold process_init_fn
  cases mp_sharding graph wi req res <;> rfl

theorem process_reset_fn_none (rand rand32 : Int → Nat → Int) (has_numpy : Bool)
    (graph : List DataPipe) (wi : WorkerInfo) (di : _DistInfo) :
    process_reset_fn rand rand32 has_numpy graph wi di none =
      reset_seeds rand rand32 has_numpy graph wi di := by
  unfold process_reset_fn
  cases reset_seeds rand rand32 has_numpy graph wi di <;> rfl

theorem mp_sharding_ok_eq (graph : List DataPipe) (wi : WorkerInfo)
    (req res : Option Queue) :
    except_ok (mp_sharding graph wi req res) =
      (decide ((find_dps graph is_dummy).length = 1) && !(decide (req = none) && decide (res = none))
       || decide ((find_dps graph is_dummy).length = 0) && (decide (req = none) && decide (res = none))) := by
  unfold mp_sharding
  dsimp only
  by_cases h₀ : (find_dps graph is_dummy).length = 0 <;>
    by_cases h₁ : (find_dps graph is_dummy).length = 1 <;>
      cases req <;> cases res <;> simp_all [except_ok]

theorem reset_seeds_eq (rand rand32 : Int → Nat → Int) (has_numpy : Bool)
    (graph : List DataPipe) (wi : WorkerInfo) (di : _DistInfo) :
    reset_seeds rand rand32 has_numpy graph wi di =
      if 2 ≤ (find_dps graph is_iterate_queue).length then
        .error "assert len(dispatch_process_consumer_dps) == 1"
      else
        .ok { reset_epoch_msgs :=
                if (find_dps graph is_iterate_queue).length = 1 ∧ wi.worker_id = 0 then 1 else 0
              graph_seed := di.shared_seed
              global_seed := derived_worker_seed wi di
              global_state :=
                _set_global_random_state (rand (derived_worker_seed wi di))
                  (rand32 (derived_worker_seed wi di)) has_numpy
              datapipe := graph.headD (DataPipe.iterPipe 0) } := by
  unfold reset_seeds
  dsimp only
  by_cases h₂ : 2 ≤ (find_dps graph is_iterate_queue).length
  · have hgt : (find_dps graph is_iterate_queue).length > 0 := by omega
    have h₁ : ¬((find_dps graph is_iterate_queue).length = 1) := by omega
    simp only [if_pos hgt, if_neg h₁, if_pos h₂]
  · by_cases h₁ : (find_dps graph is_iterate_queue).length = 1
    · by_cases h₀ : wi.worker_id = 0
      · simp [h₁, h₀, h₂]
      · simp [h₁, h₀, h₂]
    · have h0len : (find_dps graph is_iterate_queue).length = 0 := by omega
      simp [h0len, h₂]

theorem mp_sharding_ok_cases (graph : List DataPipe) (wi : WorkerInfo)
    (req res : Option Queue) (eff : InitEffects)
    (h : mp_sharding graph wi req res = .ok eff) :
    ((find_dps graph is_dummy).length = 0 ∧
       eff = { sharding_calls := [(graph.headD (DataPipe.iterPipe 0), wi.num_workers, wi.worker_id)]
               sharded_whole_graph := true
               dispatch_dp := none
               graph := graph
               datapipe := graph.headD (DataPipe.iterPipe 0) }) ∨
    ((find_dps graph is_dummy).length = 1 ∧
       eff = { sharding_calls := (find_replicable_branches graph).map
                  (fun dp => (dp, wi.num_workers, wi.worker_id))
               sharded_whole_graph := false
               dispatch_dp := some (DataPipe.iterateQueue req res)
               graph := replace_dp graph ((find_dps graph is_dummy).headD (DataPipe.dummyIter 0))
                 (DataPipe.iterateQueue req res)
               datapipe := (replace_dp graph ((find_dps graph is_dummy).headD (DataPipe.dummyIter 0))
                 (DataPipe.iterateQueue req res)).headD (DataPipe.iterPipe 0) }) := by
  unfold mp_sharding at h
  dsimp only at h
  by_cases h₀ : (find_dps graph is_dummy).length = 0
  · rw [if_pos h₀] at h
    by_cases hq : req = none ∧ res = none
    · rw [if_pos hq] at h
      simp only [Except.ok.injEq] at h
      exact Or.inl ⟨h₀, h.symm⟩
    · rw [if_neg hq] at h
      exact absurd h (by simp)
  · rw [if_neg h₀] at h
    by_cases h₁ : (find_dps graph is_dummy).length = 1
    · rw [if_pos h₁] at h
      by_cases hq : ¬(req = none ∧ res = none)
      · rw [if_pos hq] at h
        simp only [Except.ok.injEq] at h
        exact Or.inr ⟨h₁, h.symm⟩
      · rw [if_neg hq] at h
        exact absurd h (by simp)
    · rw [if_neg h₁] at h
      exact absurd h (by simp)

theorem process_reset_fn_ok_fields (rand rand32 : Int → Nat → Int) (has_numpy : Bool)
    (graph : List DataPipe) (wi : WorkerInfo) (di : _DistInfo)
    (custom_reset_fn : Option (DataPipe → WorkerInfo → DataPipe)) (eff : ResetEffects)
    (h : process_reset_fn rand rand32 has_numpy graph wi di custom_reset_fn = .ok eff) :
    eff.reset_epoch_msgs =
        (if (find_dps graph is_iterate_queue).length = 1 ∧ wi.worker_id = 0 then 1 else 0) ∧
    eff.graph_seed = di.shared_seed ∧
    eff.global_seed = derived_worker_seed wi di ∧
    eff.global_state =
      _set_global_random_state (rand (derived_worker_seed wi di))
        (rand32 (derived_worker_seed wi di)) has_numpy := by
  unfold process_reset_fn at h
  rw [reset_seeds_eq] at h
  by_cases h₂ : 2 ≤ (find_dps graph is_iterate_queue).length
  · rw [if_pos h₂] at h
    exact absurd h (by simp)
  · rw [if_neg h₂] at h
    dsimp only at h
    unfold reset_apply_custom at h
    cases custom_reset_fn with
    | none =>
      simp only [Except.ok.injEq] at h
      rw [← h]
      exact ⟨rfl, rfl, rfl, rfl⟩
    | some f =>
      dsimp only at h
      split at h
      · simp only [Except.ok.injEq] at h
        rw [← h]
        exact ⟨rfl, rfl, rfl, rfl⟩
      · exact absurd h (by simp)

/-- C1 (counterexample): at shared seed 0, worker_id 1, world_size 1,
rank 0 the worker-and-rank-specific seed is 1, and it is the seed the
generator carries into `_set_global_random_state`; but `apply_random_seed`
on the DataPipe graph receives the generator seeded with the shared base
seed 0, not with that worker-specific seed — refuting that the derived
seed is applied to both. -/
theorem C1_counterexample :
    (process_reset_fn (fun _ _ => 0) (fun _ _ => 0) true [DataPipe.iterPipe 1]
        ⟨2, 1⟩ ⟨0, 1, 0⟩ none).toOption.map
      (fun eff => (eff.graph_seed, eff.global_seed)) = some (0, 1) ∧
    derived_worker_seed ⟨2, 1⟩ ⟨0, 1, 0⟩ = 1 ∧ (0 : Int) ≠ 1 := by decide

/-- C1 (amended): in `process_reset_fn`, the worker-and-rank-specific seed
`shared_seed + worker_id * world_size + rank` is the seed the generator
carries into `_set_global_random_state`, i.e. it is applied to the
process-wide random number generators of the three subsystems; the
DataPipe graph's `apply_random_seed`, however, receives the generator
seeded with the shared base seed alone. -/
theorem C1_worker_seed_targets (rand rand32 : Int → Nat → Int) (has_numpy : Bool)
    (graph : List DataPipe) (wi : WorkerInfo) (di : _DistInfo)
    (custom_reset_fn : Option (DataPipe → WorkerInfo → DataPipe)) (eff : ResetEffects)
    (h : process_reset_fn rand rand32 has_numpy graph wi di custom_reset_fn = .ok eff) :
    eff.global_seed = derived_worker_seed wi di ∧
    eff.global_state =
      _set_global_random_state (rand (derived_worker_seed wi di))
        (rand32 (derived_worker_seed wi di)) has_numpy ∧
    eff.graph_seed = di.shared_seed ∧
    derived_worker_seed wi di =
      di.shared_seed + ((wi.worker_id * di.world_size + di.rank : Nat) : Int) := by
  obtain ⟨-, hgr, hgl, hst⟩ :=
    process_reset_fn_ok_fields rand rand32 has_numpy graph wi di custom_reset_fn eff h
  exact ⟨hgl, hst, hgr, rfl⟩

theorem C1_witness :
    process_reset_fn (fun _ _ => 0) (fun _ _ => 0) true [DataPipe.iterPipe 2]
        ⟨2, 1⟩ ⟨5, 3, 2⟩ none =
      .ok ⟨0, 5, 10, ⟨0, 0, some 0⟩, DataPipe.iterPipe 2⟩ ∧
    ((10 : Int) = derived_worker_seed ⟨2, 1⟩ ⟨5, 3, 2⟩ ∧
     (⟨0, 0, some 0⟩ : GlobalRandomState) =
       _set_global_random_state ((fun _ _ => (0 : Int)) (derived_worker_seed ⟨2, 1⟩ ⟨5, 3, 2⟩))
         ((fun _ _ => (0 : Int)) (derived_worker_seed ⟨2, 1⟩ ⟨5, 3, 2⟩)) true ∧
     (5 : Int) = (5 : Int) ∧
     derived_worker_seed ⟨2, 1⟩ ⟨5, 3, 2⟩ = 5 + ((1 * 3 + 2 : Nat) : Int)) :=
  ⟨by rfl,
   C1_worker_seed_targets (fun _ _ => 0) (fun _ _ => 0) true [DataPipe.iterPipe 2]
     ⟨2, 1⟩ ⟨5, 3, 2⟩ none ⟨0, 5, 10, ⟨0, 0, some 0⟩, DataPipe.iterPipe 2⟩ (by rfl)⟩

/-- C2 (counterexample): a call of `process_init_fn` with exactly one of
the two dispatch queues provided (request queue present, response queue
absent) on a graph with exactly one non-replicable branch raises no
assertion failure — it succeeds — refuting that such a call always
raises. -/
theorem C2_counterexample :
    except_ok (process_init_fn [DataPipe.dummyIter 3] ⟨1, 0⟩ none (some ⟨0⟩) none) = true := by
  decide

/-- C2 (amended): a call with exactly one of the two dispatch queues
provided raises an assertion failure when the graph has no non-replicable
branch (there the code asserts both queues absent) and when it has more
than one; but when the graph has exactly one non-replicable branch the
code only asserts that the queues are not both absent, so a single
provided queue passes the assertions. -/
theorem C2_single_queue_checks (graph : List DataPipe) (wi : WorkerInfo) (q : Queue) :
    except_ok (process_init_fn graph wi none (some q) none) =
      decide ((find_dps graph is_dummy).length = 1) ∧
    except_ok (process_init_fn graph wi none none (some q)) =
      decide ((find_dps graph is_dummy).length = 1) := by
  constructor <;>
    · rw [process_init_fn_none, mp_sharding_ok_eq]
      simp

/-- C3: with no custom init function, `process_init_fn` passes its
assertion checks exactly when either the graph has one non-replicable
(`_DummyIterDataPipe`) branch and the dispatch queues are not both
absent, or the graph has none and both queues are absent; hence it raises
an assertion failure whenever queues are provided but no non-replicable
branch exists, and whenever more than one such branch exists. -/
theorem C3_nonreplicable_branch_checks (graph : List DataPipe) (wi : WorkerInfo)
    (req res : Option Queue) :
    except_ok (process_init_fn graph wi none req res) = true ↔
      (((find_dps graph is_dummy).length = 1 ∧ ¬(req = none ∧ res = none)) ∨
       ((find_dps graph is_dummy).length = 0 ∧ req = none ∧ res = none)) := by
  rw [process_init_fn_none, mp_sharding_ok_eq]
  simp [not_and]
  tauto

/-- C4: on every successful call of `process_init_fn`, which sharding
path ran is determined solely by the presence of a non-replicable
(`_DummyIterDataPipe`) node: with none, multiprocessing sharding was
applied to the whole graph and the graph was not rewritten; otherwise
sharding was applied exactly to the replicable branches and the
non-replicable node was replaced by a queue-backed remote-iteration
DataPipe connected to the provided request/response queues. -/
theorem C4_exclusive_sharding_paths (graph : List DataPipe) (wi : WorkerInfo)
    (req res : Option Queue) (eff : InitEffects)
    (h : process_init_fn graph wi none req res = .ok eff) :
    ((find_dps graph is_dummy).length = 0 →
       eff.sharded_whole_graph = true ∧ eff.dispatch_dp = none ∧
       eff.sharding_calls = [(graph.headD (DataPipe.iterPipe 0), wi.num_workers, wi.worker_id)] ∧
       eff.graph = graph) ∧
    ((find_dps graph is_dummy).length ≠ 0 →
       eff.sharded_whole_graph = false ∧
       eff.dispatch_dp = some (DataPipe.iterateQueue req res) ∧
       eff.sharding_calls = (find_replicable_branches graph).map
         (fun dp => (dp, wi.num_workers, wi.worker_id)) ∧
       eff.graph = replace_dp graph ((find_dps graph is_dummy).headD (DataPipe.dummyIter 0))
         (DataPipe.iterateQueue req res)) := by
  rw [process_init_fn_none] at h
  rcases mp_sharding_ok_cases graph wi req res eff h with ⟨h₀, rfl⟩ | ⟨h₁, rfl⟩
  · exact ⟨fun _ => ⟨rfl, rfl, rfl, rfl⟩, fun hne => absurd h₀ hne⟩
  · exact ⟨fun h0 => by omega, fun _ => ⟨rfl, rfl, rfl, rfl⟩⟩

theorem C4_witness :
    process_init_fn [DataPipe.iterPipe 7, DataPipe.dummyIter 0] ⟨4, 2⟩ none
        (some ⟨1⟩) (some ⟨2⟩) =
      .ok ⟨[(DataPipe.iterPipe 7, 4, 2)], false,
           some (DataPipe.iterateQueue (some ⟨1⟩) (some ⟨2⟩)),
           [DataPipe.iterPipe 7, DataPipe.iterateQueue (some ⟨1⟩) (some ⟨2⟩)],
           DataPipe.iterPipe 7⟩ ∧
    (((find_dps [DataPipe.iterPipe 7, DataPipe.dummyIter 0] is_dummy).length = 0 →
        (false : Bool) = true ∧ (some (DataPipe.iterateQueue (some ⟨1⟩) (some ⟨2⟩)) :
          Option DataPipe) = none ∧
        ([(DataPipe.iterPipe 7, 4, 2)] : List (DataPipe × Nat × Nat)) =
          [([DataPipe.iterPipe 7, DataPipe.dummyIter 0].headD (DataPipe.iterPipe 0), 4, 2)] ∧
        ([DataPipe.iterPipe 7, DataPipe.iterateQueue (some ⟨1⟩) (some ⟨2⟩)] : List DataPipe) =
          [DataPipe.iterPipe 7, DataPipe.dummyIter 0]) ∧
     ((find_dps [DataPipe.iterPipe 7, DataPipe.dummyIter 0] is_dummy).length ≠ 0 →
        (false : Bool) = false ∧
        (some (DataPipe.iterateQueue (some ⟨1⟩) (some ⟨2⟩)) : Option DataPipe) =
          some (DataPipe.iterateQueue (some ⟨1⟩) (some ⟨2⟩)) ∧
        ([(DataPipe.iterPipe 7, 4, 2)] : List (DataPipe × Nat × Nat)) =
          (find_replicable_branches [DataPipe.iterPipe 7, DataPipe.dummyIter 0]).map
            (fun dp => (dp, 4, 2)) ∧
        ([DataPipe.iterPipe 7, DataPipe.iterateQueue (some ⟨1⟩) (some ⟨2⟩)] : List DataPipe) =
          replace_dp [DataPipe.iterPipe 7, DataPipe.dummyIter 0]
            ((find_dps [DataPipe.iterPipe 7, DataPipe.dummyIter 0] is_dummy).headD
              (DataPipe.dummyIter 0))
            (DataPipe.iterateQueue (some ⟨1⟩) (some ⟨2⟩)))) :=
  ⟨by rfl,
   C4_exclusive_sharding_paths [DataPipe.iterPipe 7, DataPipe.dummyIter 0] ⟨4, 2⟩
     (some ⟨1⟩) (some ⟨2⟩)
     ⟨[(DataPipe.iterPipe 7, 4, 2)], false,
      some (DataPipe.iterateQueue (some ⟨1⟩) (some ⟨2⟩)),
      [DataPipe.iterPipe 7, DataPipe.iterateQueue (some ⟨1⟩) (some ⟨2⟩)],
      DataPipe.iterPipe 7⟩ (by rfl)⟩

/-- C5: on every successful call of `process_reset_fn`, the dispatch
`reset_epoch` message was sent exactly once when the worker has local id
0 and the graph contains the queue-backed dispatch consumer, and never by
a worker with nonzero id nor when no consumer exists; and every worker,
regardless of its id, reseeds its own process-wide random state from the
generator carrying its derived worker seed. -/
theorem C5_dispatch_reset_only_worker0 (rand rand32 : Int → Nat → Int) (has_numpy : Bool)
    (graph : List DataPipe) (wi : WorkerInfo) (di : _DistInfo)
    (custom_reset_fn : Option (DataPipe → WorkerInfo → DataPipe)) (eff : ResetEffects)
    (h : process_reset_fn rand rand32 has_numpy graph wi di custom_reset_fn = .ok eff) :
    ((find_dps graph is_iterate_queue).length = 1 ∧ wi.worker_id = 0 →
       eff.reset_epoch_msgs = 1) ∧
    (wi.worker_id ≠ 0 → eff.reset_epoch_msgs = 0) ∧
    ((find_dps graph is_iterate_queue).length = 0 → eff.reset_epoch_msgs = 0) ∧
    eff.global_state =
      _set_global_random_state (rand (derived_worker_seed wi di))
        (rand32 (derived_worker_seed wi di)) has_numpy := by
  obtain ⟨hm, -, -, hst⟩ :=
    process_reset_fn_ok_fields rand rand32 has_numpy graph wi di custom_reset_fn eff h
  refine ⟨fun hc => ?_, fun hw => ?_, fun h0 => ?_, hst⟩
  · rw [hm, if_pos hc]
  · rw [hm, if_neg]
    rintro ⟨-, h0⟩
    exact hw h0
  · rw [hm, if_neg]
    rintro ⟨h1, -⟩
    omega

theorem C5_witness :
    process_reset_fn (fun _ _ => 0) (fun _ _ => 0) true
        [DataPipe.iterateQueue none none, DataPipe.iterPipe 1] ⟨2, 0⟩ ⟨5, 2, 1⟩ none =
      .ok ⟨1, 5, 6, ⟨0, 0, some 0⟩, DataPipe.iterateQueue none none⟩ ∧
    (((find_dps [DataPipe.iterateQueue none none, DataPipe.iterPipe 1] is_iterate_queue).length = 1 ∧
        (0 : Nat) = 0 → (1 : Nat) = 1) ∧
     ((0 : Nat) ≠ 0 → (1 : Nat) = 0) ∧
     ((find_dps [DataPipe.iterateQueue none none, DataPipe.iterPipe 1] is_iterate_queue).length = 0 →
        (1 : Nat) = 0) ∧
     (⟨0, 0, some 0⟩ : GlobalRandomState) =
       _set_global_random_state ((fun _ _ => (0 : Int)) (derived_worker_seed ⟨2, 0⟩ ⟨5, 2, 1⟩))
         ((fun _ _ => (0 : Int)) (derived_worker_seed ⟨2, 0⟩ ⟨5, 2, 1⟩)) true) :=
  ⟨by rfl,
   C5_dispatch_reset_only_worker0 (fun _ _ => 0) (fun _ _ => 0) true
     [DataPipe.iterateQueue none none, DataPipe.iterPipe 1] ⟨2, 0⟩ ⟨5, 2, 1⟩ none
     ⟨1, 5, 6, ⟨0, 0, some 0⟩, DataPipe.iterateQueue none none⟩ (by rfl)⟩

/-- C6: the worker seed `process_reset_fn` derives is a deterministic
function of `(shared_seed, worker_id, world_size, rank)`: two successful
runs with the same inputs produce the same effects, and the derived seed
equals `shared_seed + worker_id * world_size + rank`. -/
theorem C6_deterministic_worker_seed (rand rand32 : Int → Nat → Int) (has_numpy : Bool)
    (graph : List DataPipe) (wi : WorkerInfo) (di : _DistInfo) (eff₁ eff₂ : ResetEffects)
    (h₁ : process_reset_fn rand rand32 has_numpy graph wi di none = .ok eff₁)
    (h₂ : process_reset_fn rand rand32 has_numpy graph wi di none = .ok eff₂) :
    eff₁ = eff₂ ∧
    eff₁.global_seed = di.shared_seed + ((wi.worker_id * di.world_size + di.rank : Nat) : Int) := by
  have he : eff₁ = eff₂ := Except.ok.inj (h₁.symm.trans h₂)
  obtain ⟨-, -, hg, -⟩ :=
    process_reset_fn_ok_fields rand rand32 has_numpy graph wi di none eff₁ h₁
  exact ⟨he, hg⟩

theorem C6_witness :
    process_reset_fn (fun _ _ => 0) (fun _ _ => 0) true [DataPipe.iterPipe 2]
        ⟨3, 2⟩ ⟨7, 4, 3⟩ none =
      .ok ⟨0, 7, 18, ⟨0, 0, some 0⟩, DataPipe.iterPipe 2⟩ ∧
    ((⟨0, 7, 18, ⟨0, 0, some 0⟩, DataPipe.iterPipe 2⟩ : ResetEffects) =
       ⟨0, 7, 18, ⟨0, 0, some 0⟩, DataPipe.iterPipe 2⟩ ∧
     (18 : Int) = 7 + ((2 * 4 + 3 : Nat) : Int)) :=
  ⟨by rfl,
   C6_deterministic_worker_seed (fun _ _ => 0) (fun _ _ => 0) true [DataPipe.iterPipe 2]
     ⟨3, 2⟩ ⟨7, 4, 3⟩ ⟨0, 7, 18, ⟨0, 0, some 0⟩, DataPipe.iterPipe 2⟩
     ⟨0, 7, 18, ⟨0, 0, some 0⟩, DataPipe.iterPipe 2⟩ (by rfl) (by rfl)⟩

/-- C7: for every shared base seed, the worker seeds derived by
`process_reset_fn` are pairwise distinct across workers and distributed
ranks: for any two distinct pairs `(worker_id, rank)` with ranks within
`world_size`, the derived seeds differ. -/
theorem C7_distinct_worker_seeds (S : Int) (nw ws : Nat) (w₁ r₁ w₂ r₂ : Nat)
    (hr₁ : r₁ < ws) (hr₂ : r₂ < ws) (hne : (w₁, r₁) ≠ (w₂, r₂)) :
    derived_worker_seed ⟨nw, w₁⟩ ⟨S, ws, r₁⟩ ≠ derived_worker_seed ⟨nw, w₂⟩ ⟨S, ws, r₂⟩ := by
  intro h
  apply hne
  unfold derived_worker_seed global_worker_id at h
  dsimp only at h
  have h₂ : w₁ * ws + r₁ = w₂ * ws + r₂ := by
    have h₃ := add_left_cancel h
    exact_mod_cast h₃
  have hr : r₁ = r₂ := by
    have h₄ : (r₁ + w₁ * ws) % ws = (r₂ + w₂ * ws) % ws := by
      rw [add_comm r₁ (w₁ * ws), add_comm r₂ (w₂ * ws)]
      exact congrArg (fun x => x % ws) h₂
    rwa [Nat.add_mul_mod_self_right, Nat.add_mul_mod_self_right,
      Nat.mod_eq_of_lt hr₁, Nat.mod_eq_of_lt hr₂] at h₄
  have hw : w₁ = w₂ := by
    have hws : 0 < ws := by omega
    have h₅ : w₁ * ws = w₂ * ws := by omega
    exact Nat.eq_of_mul_eq_mul_right hws h₅
  simp [hr, hw]

theorem C7_witness :
    (1 : Nat) < 2 ∧ (0 : Nat) < 2 ∧ ((0, 1) : Nat × Nat) ≠ (1, 0) ∧
    derived_worker_seed ⟨2, 0⟩ ⟨0, 2, 1⟩ ≠ derived_worker_seed ⟨2, 1⟩ ⟨0, 2, 0⟩ :=
  ⟨by decide, by decide, by decide,
   C7_distinct_worker_seeds 0 2 2 0 1 1 0 (by decide) (by decide) (by decide)⟩

/-- C8: for every call of `process_init_fn` or `process_reset_fn` whose
preceding checks pass, supplying a custom init/reset function makes the
call return that function's value as its result when the value is an
`IterDataPipe` or a `MapDataPipe`, and raise an assertion failure
otherwise. -/
theorem C8_custom_fn_validation (graph : List DataPipe) (wi : WorkerInfo)
    (req res : Option Queue) (rand rand32 : Int → Nat → Int) (has_numpy : Bool)
    (di : _DistInfo) (f : DataPipe → WorkerInfo → DataPipe)
    (effI : InitEffects) (effR : ResetEffects)
    (hI : process_init_fn graph wi none req res = .ok effI)
    (hR : process_reset_fn rand rand32 has_numpy graph wi di none = .ok effR) :
    process_init_fn graph wi (some f) req res =
      (if is_iter_datapipe (f effI.datapipe wi) || is_map_datapipe (f effI.datapipe wi) then
         .ok { effI with datapipe := f effI.datapipe wi }
       else .error "assert isinstance(datapipe, (IterDataPipe, MapDataPipe))") ∧
    process_reset_fn rand rand32 has_numpy graph wi di (some f) =
      (if is_iter_datapipe (f effR.datapipe wi) || is_map_datapipe (f effR.datapipe wi) then
         .ok { effR with datapipe := f effR.datapipe wi }
       else .error "assert isinstance(datapipe, (IterDataPipe, MapDataPipe))") := by
  rw [process_init_fn_none] at hI
  rw [process_reset_fn_none] at hR
  constructor
  · unfold process_init_fn
    rw [hI]
    rfl
  · unfold process_reset_fn
    rw [hR]
    rfl

theorem C8_witness :
    process_init_fn [DataPipe.iterPipe 7] ⟨1, 0⟩ none none none =
      .ok ⟨[(DataPipe.iterPipe 7, 1, 0)], true, none, [DataPipe.iterPipe 7],
           DataPipe.iterPipe 7⟩ ∧
    process_reset_fn (fun _ _ => 0) (fun _ _ => 0) true [DataPipe.iterPipe 7]
        ⟨1, 0⟩ ⟨0, 1, 0⟩ none =
      .ok ⟨0, 0, 0, ⟨0, 0, some 0⟩, DataPipe.iterPipe 7⟩ ∧
    (process_init_fn [DataPipe.iterPipe 7] ⟨1, 0⟩
         (some (fun _ _ => DataPipe.nonPipe 5)) none none =
       .error "assert isinstance(datapipe, (IterDataPipe, MapDataPipe))" ∧
     process_reset_fn (fun _ _ => 0) (fun _ _ => 0) true [DataPipe.iterPipe 7]
         ⟨1, 0⟩ ⟨0, 1, 0⟩ (some (fun _ _ => DataPipe.nonPipe 5)) =
       .error "assert isinstance(datapipe, (IterDataPipe, MapDataPipe))") :=
  ⟨by rfl, by rfl,
   C8_custom_fn_validation [DataPipe.iterPipe 7] ⟨1, 0⟩ none none
     (fun _ _ => 0) (fun _ _ => 0) true ⟨0, 1, 0⟩ (fun _ _ => DataPipe.nonPipe 5)
     ⟨[(DataPipe.iterPipe 7, 1, 0)], true, none, [DataPipe.iterPipe 7], DataPipe.iterPipe 7⟩
     ⟨0, 0, 0, ⟨0, 0, some 0⟩, DataPipe.iterPipe 7⟩ (by rfl) (by rfl)⟩

/-- C9: in `_set_global_random_state`, when numpy is present, the seed
handed to `numpy.random.seed` lies in `[0, 2^32)` provided the generator
draw is a signed 32-bit value; a negative draw is mapped to
`2^32 + draw`. -/
theorem C9_numpy_seed_uint32 (draw draw32 : Nat → Int)
    (h₁ : -(2 ^ 31) ≤ draw32 2) (h₂ : draw32 2 < 2 ^ 31) :
    ∀ s : Int, (_set_global_random_state draw draw32 true).numpy_seed = some s →
      0 ≤ s ∧ s < 2 ^ 32 ∧ (draw32 2 < 0 → s = 2 ^ 32 + draw32 2) := by
  intro s hs
  unfold _set_global_random_state at hs
  rw [if_pos rfl] at hs
  dsimp only at hs
  rw [Option.some_inj] at hs
  subst hs
  by_cases hneg : draw32 2 < 0
  · rw [if_pos hneg]
    refine ⟨by omega, by omega, fun _ => rfl⟩
  · rw [if_neg hneg]
    refine ⟨by omega, by omega, fun hc => absurd hc hneg⟩

theorem C9_witness :
    (-(2 ^ 31) ≤ (-7 : Int)) ∧ ((-7 : Int) < 2 ^ 31) ∧
    (0 ≤ (4294967289 : Int) ∧ (4294967289 : Int) < 2 ^ 32 ∧
      ((-7 : Int) < 0 → (4294967289 : Int) = 2 ^ 32 + (-7 : Int))) :=
  ⟨by decide, by decide,
   C9_numpy_seed_uint32 (fun _ => 0) (fun _ => -7) (by decide) (by decide)
     4294967289 (by decide)⟩

/-- C10: `ColumnFromVelox.from_velox(scope, device, dtype, data,
finialized)` returns exactly the column obtained from
`scope.Column(dtype=dtype, to=device)` with its `_data` field set to
`data` and its `_finialized` field set to `finialized`, all other fields
untouched. -/
theorem C10_from_velox_fields (scope : Scope) (device : Device) (dtype : DType)
    (data : BaseColumn) (finialized : Bool) :
    ColumnFromVelox.from_velox scope device dtype data finialized =
      { scope.Column dtype device with _data := data, _finialized := finialized } ∧
    (ColumnFromVelox.from_velox scope device dtype data finialized)._data = data ∧
    (ColumnFromVelox.from_velox scope device dtype data finialized)._finialized = finialized ∧
    (ColumnFromVelox.from_velox scope device dtype data finialized).dtype =
      (scope.Column dtype device).dtype ∧
    (ColumnFromVelox.from_velox scope device dtype data finialized).device =
      (scope.Column dtype device).device :=
  ⟨rfl, rfl, rfl, rfl, rfl⟩
